import Mathlib

/-!
Verification of the CPU cgroup controller (libcontainer/cgroups/fs/cpu.go).

The controller is embedded shallowly.  Filesystem effects (control-file
writes, directory creation, process attachment) are recorded as a trace of
events; the kernel's acceptance or rejection of each attempted operation is
an oracle `Oracle` consulted with the trace so far, so that histories such
as "the first period write fails and the retry succeeds" are expressible.
A function returns its final trace together with `none` for success or
`some msg` for the Go error it would return.
-/

namespace CpuCgroup

/-- One observable filesystem effect of the controller:
a control-parameter write (directory, file name, formatted value),
a `MkdirAll` on the cgroup directory, or attaching a pid to the group. -/
inductive FsEvent where
  | write (dir file value : String)
  | mkdirAll (dir : String)
  | attach (dir : String) (pid : Int)
deriving DecidableEq

/-- Kernel/filesystem behaviour: given the attempts so far and the next
attempted event, `none` means the attempt succeeds, `some msg` that it
fails with error `msg`. -/
def Oracle : Type := List FsEvent → FsEvent → Option String

/-- The CPU-relevant fields of configs.Resources.  Unsigned kernel fields
(CpuShares, CpuPeriod, CpuRtPeriod) are `Nat`; signed ones (CpuQuota,
CpuRtRuntime) are `Int`.  Zero is Go's zero value, meaning "not set". -/
structure Resources where
  cpuShares : Nat
  cpuPeriod : Nat
  cpuQuota : Int
  cpuRtPeriod : Nat
  cpuRtRuntime : Int
deriving DecidableEq

/-- configs.Cgroup, restricted to the field this controller reads. -/
structure Cgroup where
  resources : Resources
deriving DecidableEq

/-- writeFile(dir, file, data): attempts the write, recording the event and
asking the oracle for the outcome (fs/utils.go helper, modelled as the
ParameterWriter collaborator). -/
def writeFile (W : Oracle) (tr : List FsEvent) (dir file value : String) :
    List FsEvent × Option String :=
  (tr ++ [FsEvent.write dir file value], W tr (FsEvent.write dir file value))

/-- CpuGroup.SetRtSched: write cpu.rt_period_us when CpuRtPeriod is nonzero
(failure returns immediately), then cpu.rt_runtime_us when CpuRtRuntime is
nonzero (failure returns immediately). -/
def SetRtSched (W : Oracle) (path : String) (cgroup : Cgroup)
    (tr : List FsEvent) : List FsEvent × Option String :=
  if cgroup.resources.cpuRtPeriod ≠ 0 then
    match writeFile W tr path "cpu.rt_period_us" (toString cgroup.resources.cpuRtPeriod) with
    | (tr1, some e) => (tr1, some e)
    | (tr1, none) =>
      if cgroup.resources.cpuRtRuntime ≠ 0 then
        writeFile W tr1 path "cpu.rt_runtime_us" (toString cgroup.resources.cpuRtRuntime)
      else (tr1, none)
  else
    if cgroup.resources.cpuRtRuntime ≠ 0 then
      writeFile W tr path "cpu.rt_runtime_us" (toString cgroup.resources.cpuRtRuntime)
    else (tr, none)

/-- CpuGroup.Set: write cpu.shares if nonzero (failure fatal); attempt
cpu.cfs_period_us if nonzero, and on failure set the `reorder` flag instead
of returning; write cpu.cfs_quota_us if nonzero (failure fatal); if
`reorder` was set, retry the period write (failure now fatal); finally
delegate to SetRtSched. -/
def Set (W : Oracle) (path : String) (cgroup : Cgroup) (tr : List FsEvent) :
    List FsEvent × Option String :=
  match (if cgroup.resources.cpuShares ≠ 0 then
           writeFile W tr path "cpu.shares" (toString cgroup.resources.cpuShares)
         else (tr, none)) with
  | (tr1, some e) => (tr1, some e)
  | (tr1, none) =>
    match (if cgroup.resources.cpuPeriod ≠ 0 then
             let out := writeFile W tr1 path "cpu.cfs_period_us" (toString cgroup.resources.cpuPeriod)
             (out.1, out.2.isSome)
           else (tr1, false)) with
    | (tr2, reorder) =>
      match (if cgroup.resources.cpuQuota ≠ 0 then
               writeFile W tr2 path "cpu.cfs_quota_us" (toString cgroup.resources.cpuQuota)
             else (tr2, none)) with
      | (tr3, some e) => (tr3, some e)
      | (tr3, none) =>
        match (if reorder then
                 writeFile W tr3 path "cpu.cfs_period_us" (toString cgroup.resources.cpuPeriod)
               else (tr3, none)) with
        | (tr4, some e) => (tr4, some e)
        | (tr4, none) => SetRtSched W path cgroup tr4

/-- os.MkdirAll on the cgroup directory: records the event, outcome from
the oracle. -/
def mkdirAll (W : Oracle) (tr : List FsEvent) (dir : String) :
    List FsEvent × Option String :=
  (tr ++ [FsEvent.mkdirAll dir], W tr (FsEvent.mkdirAll dir))

/-- cgroups.WriteCgroupProc (the ProcessAttacher collaborator): records the
attach attempt, outcome from the oracle. -/
def WriteCgroupProc (W : Oracle) (tr : List FsEvent) (dir : String) (pid : Int) :
    List FsEvent × Option String :=
  (tr ++ [FsEvent.attach dir pid], W tr (FsEvent.attach dir pid))

/-- CpuGroup.ApplyDir: empty path is a success no-op; otherwise MkdirAll,
then SetRtSched, then WriteCgroupProc, each failure returned immediately. -/
def ApplyDir (W : Oracle) (path : String) (cgroup : Cgroup) (pid : Int)
    (tr : List FsEvent) : List FsEvent × Option String :=
  if path = "" then (tr, none)
  else
    match mkdirAll W tr path with
    | (tr1, some e) => (tr1, some e)
    | (tr1, none) =>
      match SetRtSched W path cgroup tr1 with
      | (tr2, some e) => (tr2, some e)
      | (tr2, none) => WriteCgroupProc W tr2 path pid

/-- Outcome of the `d.path("cpu")` resolution (the PathResolver
collaborator): `notFound` marks the cgroups.IsNotFound class of errors. -/
structure PathError where
  notFound : Bool
  msg : String
deriving DecidableEq

/-- cgroups.IsNotFound: true only for a present, not-found resolution
error. -/
def IsNotFound : Option PathError → Bool
  | some e => e.notFound
  | none => false

/-- cgroupData, restricted to what CpuGroup.Apply reads: the resolved
path for "cpu" with its resolution error, the config, and the pid. -/
structure CgroupData where
  path : String
  pathErr : Option PathError
  config : Cgroup
  pid : Int

/-- CpuGroup.Apply: resolve the path; a resolution error that is not
IsNotFound is returned; otherwise delegate to ApplyDir. -/
def Apply (W : Oracle) (d : CgroupData) (tr : List FsEvent) :
    List FsEvent × Option String :=
  match d.pathErr with
  | some e =>
    if !e.notFound then (tr, some e.msg)
    else ApplyDir W d.path d.config d.pid tr
  | none => ApplyDir W d.path d.config d.pid tr

/-- cgroups.Stats throttling counters (Periods, ThrottledPeriods,
ThrottledTime). -/
structure ThrottlingData where
  periods : Nat
  throttledPeriods : Nat
  throttledTime : Nat
deriving DecidableEq

/-- Modelled from the spec: the CpuStats part of the caller-owned stats
record; `restCpuFields` stands for every CpuStats field other than the
throttling counters (the CpuStats type itself is outside src/). -/
structure CpuStats (ρ : Type) where
  throttlingData : ThrottlingData
  restCpuFields : ρ
deriving DecidableEq

/-- Modelled from the spec: the caller-owned stats record shared across
subsystem readers; `restStatsFields` stands for every field of the record
outside CpuStats (memory, blkio, ... — the Stats type is outside src/). -/
structure Stats (ρ σ : Type) where
  cpuStats : CpuStats ρ
  restStatsFields : σ
deriving DecidableEq

/-- Outcome class of os.Open on cpu.stat: `isNotExist` marks the
os.IsNotExist errors. -/
structure OpenError where
  isNotExist : Bool
  msg : String
deriving DecidableEq

/-- The scanner loop of CpuGroup.GetStats over the lines of cpu.stat:
each line goes through the key/value parser (getCgroupParamKeyValue, a
collaborator passed in as `parse`); a parse error is returned at once;
recognized keys update the matching throttling counter in place and
unrecognized keys are ignored. -/
def GetStatsLoop {ρ σ : Type} (parse : String → Except String (String × Nat)) :
    List String → Stats ρ σ → Stats ρ σ × Option String
  | [], s => (s, none)
  | line :: rest, s =>
    match parse line with
    | Except.error e => (s, some e)
    | Except.ok (t, v) =>
      let s1 :=
        if t = "nr_periods" then
          { s with cpuStats := { s.cpuStats with throttlingData :=
              { s.cpuStats.throttlingData with periods := v } } }
        else if t = "nr_throttled" then
          { s with cpuStats := { s.cpuStats with throttlingData :=
              { s.cpuStats.throttlingData with throttledPeriods := v } } }
        else if t = "throttled_time" then
          { s with cpuStats := { s.cpuStats with throttlingData :=
              { s.cpuStats.throttlingData with throttledTime := v } } }
        else s
      GetStatsLoop parse rest s1

/-- CpuGroup.GetStats: open cpu.stat (`statFile` is the outcome: the list
of lines, or an open error); a missing file is success with the record
untouched, any other open error is returned; otherwise scan the lines. -/
def GetStats {ρ σ : Type} (parse : String → Except String (String × Nat))
    (statFile : Except OpenError (List String)) (stats : Stats ρ σ) :
    Stats ρ σ × Option String :=
  match statFile with
  | Except.error e => if e.isNotExist then (stats, none) else (stats, some e.msg)
  | Except.ok lines => GetStatsLoop parse lines stats

/-- Split a character list into maximal blank-free words. -/
def wordsAux : List Char → List Char → List String
  | [], cur => if cur.isEmpty then [] else [String.mk cur.reverse]
  | c :: rest, cur =>
    if c = ' ' then
      if cur.isEmpty then wordsAux rest []
      else String.mk cur.reverse :: wordsAux rest []
    else wordsAux rest (c :: cur)

/-- The blank-separated words of a line. -/
def wordsOf (line : String) : List String :=
  wordsAux line.data []

/-- The value of a decimal digit character, if it is one. -/
def digitVal (c : Char) : Option Nat :=
  if c.toNat ≥ 48 && c.toNat ≤ 57 then some (c.toNat - 48) else none

/-- Parse a nonempty all-digit character list as a decimal number. -/
def parseDecAux : List Char → Nat → Option Nat
  | [], acc => some acc
  | c :: rest, acc =>
    match digitVal c with
    | some d => parseDecAux rest (acc * 10 + d)
    | none => none

/-- Parse a word as an unsigned decimal integer. -/
def parseDec (w : String) : Option Nat :=
  match w.data with
  | [] => none
  | cs => parseDecAux cs 0

/-- Modelled from the spec: the KeyValueParser collaborator
(getCgroupParamKeyValue is outside src/) — split a stats line on blanks
into exactly a key token and an unsigned decimal value. -/
def specKeyValueParse (line : String) : Except String (String × Nat) :=
  match wordsOf line with
  | [k, v] =>
    match parseDec v with
    | some n => Except.ok (k, n)
    | none => Except.error ("unable to convert to uint64: " ++ v)
  | _ => Except.error ("invalid format of line: " ++ line)

/-- Is this event a write to control file `file`? -/
def isWriteTo (file : String) : FsEvent → Bool
  | FsEvent.write _ f _ => f = file
  | _ => false

/-- How many attempted writes to control file `file` a trace holds. -/
def countFile (file : String) (tr : List FsEvent) : Nat :=
  (tr.filter (isWriteTo file)).length

/-- Is this event a process-attach attempt? -/
def isAttach : FsEvent → Bool
  | FsEvent.attach _ _ => true
  | _ => false

/-- Kernel behaviour where every attempted operation succeeds. -/
def okOracle : Oracle := fun _ _ => none

/-- Kernel behaviour where the first write to cpu.cfs_period_us is
rejected and every other attempt (including the period retry) succeeds. -/
def failFirstPeriod : Oracle := fun tr ev =>
  if isWriteTo "cpu.cfs_period_us" ev && countFile "cpu.cfs_period_us" tr == 0 then
    some "period-rejected"
  else none

/-- Kernel behaviour where every write to cpu.cfs_period_us is rejected —
with distinct messages for the first attempt and for retries, so that
which attempt produced the returned error is observable — and every other
attempt succeeds. -/
def failPeriodBoth : Oracle := fun tr ev =>
  if isWriteTo "cpu.cfs_period_us" ev then
    if countFile "cpu.cfs_period_us" tr == 0 then some "first-period-error"
    else some "retry-period-error"
  else none


/-- C1: with a spec whose shares, period and quota are all nonzero, under a
kernel that rejects the first cpu.cfs_period_us write and accepts every
other attempt, Set performs exactly shares, period (failing, error not
returned), quota, period retry (succeeding), then the RT fields, returns
success, and the period parameter is written exactly twice. -/
theorem set_period_retry_sequence (p : String) (c : Cgroup)
    (hs : c.resources.cpuShares ≠ 0) (hp : c.resources.cpuPeriod ≠ 0)
    (hq : c.resources.cpuQuota ≠ 0) :
    Set failFirstPeriod p c [] =
      ([FsEvent.write p "cpu.shares" (toString c.resources.cpuShares),
        FsEvent.write p "cpu.cfs_period_us" (toString c.resources.cpuPeriod),
        FsEvent.write p "cpu.cfs_quota_us" (toString c.resources.cpuQuota),
        FsEvent.write p "cpu.cfs_period_us" (toString c.resources.cpuPeriod)] ++
       (if c.resources.cpuRtPeriod = 0 then [] else
         [FsEvent.write p "cpu.rt_period_us" (toString c.resources.cpuRtPeriod)]) ++
       (if c.resources.cpuRtRuntime = 0 then [] else
         [FsEvent.write p "cpu.rt_runtime_us" (toString c.resources.cpuRtRuntime)]),
       none) ∧
    countFile "cpu.cfs_period_us" (Set failFirstPeriod p c []).1 = 2 := by
  have main : Set failFirstPeriod p c [] =
      ([FsEvent.write p "cpu.shares" (toString c.resources.cpuShares),
        FsEvent.write p "cpu.cfs_period_us" (toString c.resources.cpuPeriod),
        FsEvent.write p "cpu.cfs_quota_us" (toString c.resources.cpuQuota),
        FsEvent.write p "cpu.cfs_period_us" (toString c.resources.cpuPeriod)] ++
       (if c.resources.cpuRtPeriod = 0 then [] else
         [FsEvent.write p "cpu.rt_period_us" (toString c.resources.cpuRtPeriod)]) ++
       (if c.resources.cpuRtRuntime = 0 then [] else
         [FsEvent.write p "cpu.rt_runtime_us" (toString c.resources.cpuRtRuntime)]),
       none) := by
    rcases Nat.eq_zero_or_pos c.resources.cpuRtPeriod with h1 | h1 <;>
    rcases eq_or_ne c.resources.cpuRtRuntime 0 with h2 | h2 <;>
      simp [Set, SetRtSched, writeFile, failFirstPeriod, isWriteTo, countFile,
        hs, hp, hq, h1, h2, Nat.pos_iff_ne_zero.mp]
  refine ⟨main, ?_⟩
  rw [main]
  rcases eq_or_ne c.resources.cpuRtPeriod 0 with h1 | h1 <;>
  rcases eq_or_ne c.resources.cpuRtRuntime 0 with h2 | h2 <;>
    simp [countFile, isWriteTo, h1, h2]

/-- C2: with a spec whose period is nonzero, under a kernel that rejects
every cpu.cfs_period_us write (with a distinct message for the retry) and
accepts everything else, Set returns the retry's error; cpu.cfs_quota_us
is written exactly once, before the retry, when quota is nonzero and never
when it is zero, and the retry is attempted even when quota is zero. -/
theorem set_period_fails_twice (p : String) (c : Cgroup)
    (hp : c.resources.cpuPeriod ≠ 0) :
    Set failPeriodBoth p c [] =
      ((if c.resources.cpuShares = 0 then [] else
          [FsEvent.write p "cpu.shares" (toString c.resources.cpuShares)]) ++
       [FsEvent.write p "cpu.cfs_period_us" (toString c.resources.cpuPeriod)] ++
       (if c.resources.cpuQuota = 0 then [] else
          [FsEvent.write p "cpu.cfs_quota_us" (toString c.resources.cpuQuota)]) ++
       [FsEvent.write p "cpu.cfs_period_us" (toString c.resources.cpuPeriod)],
       some "retry-period-error") ∧
    countFile "cpu.cfs_quota_us" (Set failPeriodBoth p c []).1 =
      (if c.resources.cpuQuota = 0 then 0 else 1) := by
  have main : Set failPeriodBoth p c [] =
      ((if c.resources.cpuShares = 0 then [] else
          [FsEvent.write p "cpu.shares" (toString c.resources.cpuShares)]) ++
       [FsEvent.write p "cpu.cfs_period_us" (toString c.resources.cpuPeriod)] ++
       (if c.resources.cpuQuota = 0 then [] else
          [FsEvent.write p "cpu.cfs_quota_us" (toString c.resources.cpuQuota)]) ++
       [FsEvent.write p "cpu.cfs_period_us" (toString c.resources.cpuPeriod)],
       some "retry-period-error") := by
    rcases eq_or_ne c.resources.cpuShares 0 with h1 | h1 <;>
    rcases eq_or_ne c.resources.cpuQuota 0 with h2 | h2 <;>
      simp [Set, SetRtSched, writeFile, failPeriodBoth, isWriteTo, countFile,
        hp, h1, h2]
  refine ⟨main, ?_⟩
  rw [main]
  rcases eq_or_ne c.resources.cpuShares 0 with h1 | h1 <;>
  rcases eq_or_ne c.resources.cpuQuota 0 with h2 | h2 <;>
    simp [countFile, isWriteTo, h1, h2]


theorem set_shares_zero (W : Oracle) (p : String) (c : Cgroup) (tr : List FsEvent)
    (h : c.resources.cpuShares = 0) :
    countFile "cpu.shares" (Set W p c tr).1 = countFile "cpu.shares" tr := by
  unfold Set SetRtSched writeFile
  simp only [h]
  repeat' split
  all_goals try split_ifs at *
  all_goals try simp only [Prod.mk.injEq] at *
  all_goals try casesm* _ ∧ _
  all_goals try subst_vars
  all_goals simp_all [countFile, isWriteTo, List.filter_append]

theorem set_period_zero (W : Oracle) (p : String) (c : Cgroup) (tr : List FsEvent)
    (h : c.resources.cpuPeriod = 0) :
    countFile "cpu.cfs_period_us" (Set W p c tr).1 = countFile "cpu.cfs_period_us" tr := by
  unfold Set SetRtSched writeFile
  simp only [h]
  repeat' split
  all_goals try split_ifs at *
  all_goals try simp only [Prod.mk.injEq] at *
  all_goals try casesm* _ ∧ _
  all_goals try subst_vars
  all_goals simp_all [countFile, isWriteTo, List.filter_append]

theorem set_quota_zero (W : Oracle) (p : String) (c : Cgroup) (tr : List FsEvent)
    (h : c.resources.cpuQuota = 0) :
    countFile "cpu.cfs_quota_us" (Set W p c tr).1 = countFile "cpu.cfs_quota_us" tr := by
  unfold Set SetRtSched writeFile
  simp only [h]
  repeat' split
  all_goals try split_ifs at *
  all_goals try simp only [Prod.mk.injEq] at *
  all_goals try casesm* _ ∧ _
  all_goals try subst_vars
  all_goals simp_all [countFile, isWriteTo, List.filter_append]

theorem set_rtperiod_zero (W : Oracle) (p : String) (c : Cgroup) (tr : List FsEvent)
    (h : c.resources.cpuRtPeriod = 0) :
    countFile "cpu.rt_period_us" (Set W p c tr).1 = countFile "cpu.rt_period_us" tr := by
  unfold Set SetRtSched writeFile
  simp only [h]
  repeat' split
  all_goals try split_ifs at *
  all_goals try simp only [Prod.mk.injEq] at *
  all_goals try casesm* _ ∧ _
  all_goals try subst_vars
  all_goals simp_all [countFile, isWriteTo, List.filter_append]

theorem set_rtruntime_zero (W : Oracle) (p : String) (c : Cgroup) (tr : List FsEvent)
    (h : c.resources.cpuRtRuntime = 0) :
    countFile "cpu.rt_runtime_us" (Set W p c tr).1 = countFile "cpu.rt_runtime_us" tr := by
  unfold Set SetRtSched writeFile
  simp only [h]
  repeat' split
  all_goals try split_ifs at *
  all_goals try simp only [Prod.mk.injEq] at *
  all_goals try casesm* _ ∧ _
  all_goals try subst_vars
  all_goals simp_all [countFile, isWriteTo, List.filter_append]

theorem setRtSched_rtperiod_zero (W : Oracle) (p : String) (c : Cgroup) (tr : List FsEvent)
    (h : c.resources.cpuRtPeriod = 0) :
    countFile "cpu.rt_period_us" (SetRtSched W p c tr).1 = countFile "cpu.rt_period_us" tr := by
  unfold SetRtSched writeFile
  simp only [h]
  repeat' split
  all_goals try simp only [Prod.mk.injEq] at *
  all_goals try casesm* _ ∧ _
  all_goals try subst_vars
  all_goals simp_all [countFile, isWriteTo, List.filter_append]

theorem setRtSched_rtruntime_zero (W : Oracle) (p : String) (c : Cgroup) (tr : List FsEvent)
    (h : c.resources.cpuRtRuntime = 0) :
    countFile "cpu.rt_runtime_us" (SetRtSched W p c tr).1 = countFile "cpu.rt_runtime_us" tr := by
  unfold SetRtSched writeFile
  simp only [h]
  repeat' split
  all_goals try simp only [Prod.mk.injEq] at *
  all_goals try casesm* _ ∧ _
  all_goals try subst_vars
  all_goals simp_all [countFile, isWriteTo, List.filter_append]

theorem set_ok_trace (p : String) (c : Cgroup) :
    Set okOracle p c [] =
      ((if c.resources.cpuShares = 0 then [] else
          [FsEvent.write p "cpu.shares" (toString c.resources.cpuShares)]) ++
       (if c.resources.cpuPeriod = 0 then [] else
          [FsEvent.write p "cpu.cfs_period_us" (toString c.resources.cpuPeriod)]) ++
       (if c.resources.cpuQuota = 0 then [] else
          [FsEvent.write p "cpu.cfs_quota_us" (toString c.resources.cpuQuota)]) ++
       (if c.resources.cpuRtPeriod = 0 then [] else
          [FsEvent.write p "cpu.rt_period_us" (toString c.resources.cpuRtPeriod)]) ++
       (if c.resources.cpuRtRuntime = 0 then [] else
          [FsEvent.write p "cpu.rt_runtime_us" (toString c.resources.cpuRtRuntime)]),
       none) := by
  rcases eq_or_ne c.resources.cpuShares 0 with h1 | h1 <;>
  rcases eq_or_ne c.resources.cpuPeriod 0 with h2 | h2 <;>
  rcases eq_or_ne c.resources.cpuQuota 0 with h3 | h3 <;>
  rcases eq_or_ne c.resources.cpuRtPeriod 0 with h4 | h4 <;>
  rcases eq_or_ne c.resources.cpuRtRuntime 0 with h5 | h5 <;>
    simp [Set, SetRtSched, writeFile, okOracle, h1, h2, h3, h4, h5]


/-- C3 -/
theorem set_zero_fields_never_written (W : Oracle) (p : String) (c : Cgroup) :
    (c.resources.cpuShares = 0 → countFile "cpu.shares" (Set W p c []).1 = 0) ∧
    (c.resources.cpuPeriod = 0 → countFile "cpu.cfs_period_us" (Set W p c []).1 = 0) ∧
    (c.resources.cpuQuota = 0 → countFile "cpu.cfs_quota_us" (Set W p c []).1 = 0) ∧
    (c.resources.cpuRtPeriod = 0 → countFile "cpu.rt_period_us" (Set W p c []).1 = 0 ∧
       countFile "cpu.rt_period_us" (SetRtSched W p c []).1 = 0) ∧
    (c.resources.cpuRtRuntime = 0 → countFile "cpu.rt_runtime_us" (Set W p c []).1 = 0 ∧
       countFile "cpu.rt_runtime_us" (SetRtSched W p c []).1 = 0) ∧
    ((Set okOracle p c []).2 = none ∧
     countFile "cpu.shares" (Set okOracle p c []).1 =
       (if c.resources.cpuShares = 0 then 0 else 1) ∧
     countFile "cpu.cfs_period_us" (Set okOracle p c []).1 =
       (if c.resources.cpuPeriod = 0 then 0 else 1) ∧
     countFile "cpu.cfs_quota_us" (Set okOracle p c []).1 =
       (if c.resources.cpuQuota = 0 then 0 else 1) ∧
     countFile "cpu.rt_period_us" (Set okOracle p c []).1 =
       (if c.resources.cpuRtPeriod = 0 then 0 else 1) ∧
     countFile "cpu.rt_runtime_us" (Set okOracle p c []).1 =
       (if c.resources.cpuRtRuntime = 0 then 0 else 1)) ∧
    (c.resources = ⟨0, 0, 0, 0, 0⟩ → Set W p c [] = ([], none)) := by
  refine ⟨?_, ?_, ?_, ?_, ?_, ⟨?_, ?_, ?_, ?_, ?_, ?_⟩, ?_⟩
  · intro h
    simpa [countFile] using set_shares_zero W p c [] h
  · intro h
    simpa [countFile] using set_period_zero W p c [] h
  · intro h
    simpa [countFile] using set_quota_zero W p c [] h
  · intro h
    exact ⟨by simpa [countFile] using set_rtperiod_zero W p c [] h,
           by simpa [countFile] using setRtSched_rtperiod_zero W p c [] h⟩
  · intro h
    exact ⟨by simpa [countFile] using set_rtruntime_zero W p c [] h,
           by simpa [countFile] using setRtSched_rtruntime_zero W p c [] h⟩
  · rw [set_ok_trace]
  all_goals try (
    rw [set_ok_trace]
    rcases eq_or_ne c.resources.cpuShares 0 with h1 | h1 <;>
    rcases eq_or_ne c.resources.cpuPeriod 0 with h2 | h2 <;>
    rcases eq_or_ne c.resources.cpuQuota 0 with h3 | h3 <;>
    rcases eq_or_ne c.resources.cpuRtPeriod 0 with h4 | h4 <;>
    rcases eq_or_ne c.resources.cpuRtRuntime 0 with h5 | h5 <;>
      simp [countFile, isWriteTo, List.filter_append, h1, h2, h3, h4, h5])
  · intro h
    simp [Set, SetRtSched, writeFile, h]


theorem setRtSched_no_attach (W : Oracle) (p : String) (c : Cgroup) (tr : List FsEvent)
    (h : ∀ ev ∈ tr, isAttach ev = false) :
    ∀ ev ∈ (SetRtSched W p c tr).1, isAttach ev = false := by
  unfold SetRtSched writeFile
  repeat' split
  all_goals try simp only [Prod.mk.injEq] at *
  all_goals try casesm* _ ∧ _
  all_goals try subst_vars
  all_goals intro ev hev
  all_goals try simp only [List.mem_append, List.mem_singleton] at hev
  all_goals first
    | (rcases hev with (hev | rfl) | rfl)
    | (rcases hev with hev | rfl)
    | skip
  all_goals first
    | exact h ev hev
    | rfl

/-- C4 -/
theorem applyDir_rt_before_attach (W : Oracle) (p : String) (c : Cgroup) (pid : Int)
    (hp : p ≠ "") :
    (∀ ev ∈ (SetRtSched W p c [FsEvent.mkdirAll p]).1, isAttach ev = false) ∧
    ((∃ ev ∈ (ApplyDir W p c pid []).1, isAttach ev = true) →
      (SetRtSched W p c [FsEvent.mkdirAll p]).2 = none ∧
      (ApplyDir W p c pid []).1 =
        (SetRtSched W p c [FsEvent.mkdirAll p]).1 ++ [FsEvent.attach p pid]) := by
  have hno : ∀ ev ∈ (SetRtSched W p c [FsEvent.mkdirAll p]).1, isAttach ev = false :=
    setRtSched_no_attach W p c _ (by simp [isAttach])
  refine ⟨hno, ?_⟩
  intro hex
  unfold ApplyDir mkdirAll WriteCgroupProc at hex ⊢
  simp only [hp, if_false, List.nil_append] at hex ⊢
  rcases hmk : W [] (FsEvent.mkdirAll p) with _ | e
  · simp only [hmk] at hex ⊢
    rcases hS : SetRtSched W p c [FsEvent.mkdirAll p] with ⟨tr2, res2⟩
    rcases res2 with _ | e2
    · simp
    · try simp only at hex
      rcases hex with ⟨ev, hev, hat⟩
      have := hno ev (by rw [hS] at *; exact hev)
      simp_all
  · simp only [hmk] at hex
    rcases hex with ⟨ev, hev, hat⟩
    simp_all [isAttach]

/-- C5 -/
theorem apply_resolution (W : Oracle) (d : CgroupData) :
    (d.path = "" → (d.pathErr = none ∨ IsNotFound d.pathErr = true) →
      Apply W d [] = ([], none)) ∧
    (∀ e, d.pathErr = some e → e.notFound = false →
      Apply W d [] = ([], some e.msg)) := by
  constructor
  · intro hp hnf
    rcases hE : d.pathErr with _ | e <;>
      simp_all [Apply, ApplyDir, IsNotFound]
  · intro e hE hnf
    simp [Apply, hE, hnf]

/-- C6 -/
theorem getStats_open_error {ρ σ : Type}
    (parse : String → Except String (String × Nat)) (e : OpenError) (s : Stats ρ σ) :
    (e.isNotExist = true → GetStats parse (Except.error e) s = (s, none)) ∧
    (e.isNotExist = false → GetStats parse (Except.error e) s = (s, some e.msg)) := by
  constructor <;> intro h <;> simp [GetStats, h]

/-- C7 -/
theorem getStats_maps_keys {ρ σ : Type}
    (parse : String → Except String (String × Nat)) (s : Stats ρ σ)
    (h1 : parse "nr_periods 10" = Except.ok ("nr_periods", 10))
    (h2 : parse "nr_throttled 2" = Except.ok ("nr_throttled", 2))
    (h3 : parse "throttled_time 500000" = Except.ok ("throttled_time", 500000)) :
    GetStats parse
        (Except.ok ["nr_periods 10", "nr_throttled 2", "throttled_time 500000"]) s =
      ({ s with cpuStats := { s.cpuStats with throttlingData := ⟨10, 2, 500000⟩ } },
        none) ∧
    (∀ (line k : String) (v : Nat) (rest : List String) (s2 : Stats ρ σ),
      parse line = Except.ok (k, v) → k ≠ "nr_periods" → k ≠ "nr_throttled" →
      k ≠ "throttled_time" →
      GetStatsLoop parse (line :: rest) s2 = GetStatsLoop parse rest s2) := by
  constructor
  · obtain ⟨⟨⟨a, b, cc⟩, rc⟩, rs⟩ := s
    simp [GetStats, GetStatsLoop, h1, h2, h3]
  · intro line k v rest s2 hl hk1 hk2 hk3
    simp [GetStatsLoop, hl, hk1, hk2, hk3]

/-- C8 amended -/
theorem getStats_parse_error_stops {ρ σ : Type}
    (parse : String → Except String (String × Nat))
    (pre : List String) (line : String) (rest : List String) (s : Stats ρ σ) (e : String)
    (hline : parse line = Except.error e)
    (hpre : (GetStatsLoop parse pre s).2 = none) :
    GetStats parse (Except.ok (pre ++ line :: rest)) s =
      ((GetStatsLoop parse pre s).1, some e) := by
  simp only [GetStats]
  induction pre generalizing s with
  | nil => simp [GetStatsLoop, hline]
  | cons l0 pre ih =>
    rcases hl0 : parse l0 with e0 | ⟨t, v⟩
    · simp only [GetStatsLoop, hl0] at hpre
      simp at hpre
    · simp only [List.cons_append, GetStatsLoop, hl0] at hpre ⊢
      exact ih _ hpre

theorem setRtSched_run (W : Oracle) (p : String) (c : Cgroup) (tr : List FsEvent) :
    SetRtSched W p c tr =
      (if c.resources.cpuRtPeriod ≠ 0 then
        match W tr (FsEvent.write p "cpu.rt_period_us" (toString c.resources.cpuRtPeriod)) with
        | some e =>
          (tr ++ [FsEvent.write p "cpu.rt_period_us" (toString c.resources.cpuRtPeriod)],
            some e)
        | none =>
          if c.resources.cpuRtRuntime ≠ 0 then
            (tr ++ [FsEvent.write p "cpu.rt_period_us" (toString c.resources.cpuRtPeriod)] ++
               [FsEvent.write p "cpu.rt_runtime_us" (toString c.resources.cpuRtRuntime)],
              W (tr ++ [FsEvent.write p "cpu.rt_period_us" (toString c.resources.cpuRtPeriod)])
                (FsEvent.write p "cpu.rt_runtime_us" (toString c.resources.cpuRtRuntime)))
          else
            (tr ++ [FsEvent.write p "cpu.rt_period_us" (toString c.resources.cpuRtPeriod)],
              none)
      else
        if c.resources.cpuRtRuntime ≠ 0 then
          (tr ++ [FsEvent.write p "cpu.rt_runtime_us" (toString c.resources.cpuRtRuntime)],
            W tr (FsEvent.write p "cpu.rt_runtime_us" (toString c.resources.cpuRtRuntime)))
        else (tr, none)) := by
  unfold SetRtSched writeFile
  rcases hW : W tr (FsEvent.write p "cpu.rt_period_us" (toString c.resources.cpuRtPeriod))
      with _ | e <;>
    simp [hW]

theorem setRtSched_ok_counts (W : Oracle) (p : String) (c : Cgroup)
    (h : (SetRtSched W p c []).2 = none) :
    countFile "cpu.rt_period_us" (SetRtSched W p c []).1 =
      (if c.resources.cpuRtPeriod = 0 then 0 else 1) ∧
    countFile "cpu.rt_runtime_us" (SetRtSched W p c []).1 =
      (if c.resources.cpuRtRuntime = 0 then 0 else 1) := by
  rw [setRtSched_run] at h ⊢
  by_cases h1 : c.resources.cpuRtPeriod = 0
  · by_cases h2 : c.resources.cpuRtRuntime = 0 <;>
      simp_all [countFile, isWriteTo, List.filter_append]
  · rcases hW : W []
        (FsEvent.write p "cpu.rt_period_us" (toString c.resources.cpuRtPeriod))
        with _ | e
    · by_cases h2 : c.resources.cpuRtRuntime = 0 <;>
        simp_all [countFile, isWriteTo, List.filter_append]
    · simp_all

theorem setRtSched_err_last (W : Oracle) (p : String) (c : Cgroup) (e : String)
    (h : (SetRtSched W p c []).2 = some e) :
    ∃ pre ev, (SetRtSched W p c []).1 = pre ++ [ev] ∧ W pre ev = some e := by
  rw [setRtSched_run] at h ⊢
  by_cases h1 : c.resources.cpuRtPeriod = 0
  · by_cases h2 : c.resources.cpuRtRuntime = 0
    · simp_all
    · simp_all
      exact ⟨[], FsEvent.write p "cpu.rt_runtime_us" (toString c.resources.cpuRtRuntime),
        by simp, h⟩
  · rcases hW : W []
        (FsEvent.write p "cpu.rt_period_us" (toString c.resources.cpuRtPeriod))
        with _ | e1
    · by_cases h2 : c.resources.cpuRtRuntime = 0
      · simp_all
      · simp_all
        exact ⟨[FsEvent.write p "cpu.rt_period_us" (toString c.resources.cpuRtPeriod)],
          FsEvent.write p "cpu.rt_runtime_us" (toString c.resources.cpuRtRuntime),
          by simp, h⟩
    · simp_all
      exact ⟨[], FsEvent.write p "cpu.rt_period_us" (toString c.resources.cpuRtPeriod),
        by simp, by simp [hW, h]⟩

theorem setRtSched_rtperiod_fail_first (W : Oracle) (p : String) (c : Cgroup)
    (e : String) (h1 : c.resources.cpuRtPeriod ≠ 0)
    (hW : W [] (FsEvent.write p "cpu.rt_period_us" (toString c.resources.cpuRtPeriod)) =
      some e) :
    SetRtSched W p c [] =
      ([FsEvent.write p "cpu.rt_period_us" (toString c.resources.cpuRtPeriod)],
        some e) := by
  unfold SetRtSched writeFile
  simp [h1, hW]

/-- C9 -/
theorem setRtSched_write_protocol (W : Oracle) (p : String) (c : Cgroup) :
    ((SetRtSched W p c []).2 = none →
      countFile "cpu.rt_period_us" (SetRtSched W p c []).1 =
        (if c.resources.cpuRtPeriod = 0 then 0 else 1) ∧
      countFile "cpu.rt_runtime_us" (SetRtSched W p c []).1 =
        (if c.resources.cpuRtRuntime = 0 then 0 else 1)) ∧
    (∀ e, (SetRtSched W p c []).2 = some e →
      ∃ pre ev, (SetRtSched W p c []).1 = pre ++ [ev] ∧ W pre ev = some e) ∧
    (∀ e, c.resources.cpuRtPeriod ≠ 0 →
      W [] (FsEvent.write p "cpu.rt_period_us" (toString c.resources.cpuRtPeriod)) =
        some e →
      SetRtSched W p c [] =
        ([FsEvent.write p "cpu.rt_period_us" (toString c.resources.cpuRtPeriod)],
          some e)) :=
  ⟨fun h => setRtSched_ok_counts W p c h,
   fun e h => setRtSched_err_last W p c e h,
   fun e h1 hW => setRtSched_rtperiod_fail_first W p c e h1 hW⟩

theorem getStatsLoop_frame {ρ σ : Type}
    (parse : String → Except String (String × Nat))
    (lines : List String) (s : Stats ρ σ) :
    (GetStatsLoop parse lines s).1.cpuStats.restCpuFields = s.cpuStats.restCpuFields ∧
    (GetStatsLoop parse lines s).1.restStatsFields = s.restStatsFields := by
  induction lines generalizing s with
  | nil => simp [GetStatsLoop]
  | cons l rest ih =>
    rcases hl : parse l with e | ⟨t, v⟩
    · simp [GetStatsLoop, hl]
    · simp only [GetStatsLoop, hl]
      split_ifs <;> simpa using ih _

/-- C10 -/
theorem getStats_frame {ρ σ : Type}
    (parse : String → Except String (String × Nat))
    (statFile : Except OpenError (List String)) (s : Stats ρ σ) :
    (GetStats parse statFile s).1.cpuStats.restCpuFields = s.cpuStats.restCpuFields ∧
    (GetStats parse statFile s).1.restStatsFields = s.restStatsFields := by
  rcases statFile with e | lines
  · simp only [GetStats]
    split_ifs <;> simp
  · exact getStatsLoop_frame parse lines s


/-- Witness for C1 at a concrete spec: shares 1024, period 100000, quota
50000, no RT fields. -/
theorem set_period_retry_sequence_witness :
    Set failFirstPeriod "w" ⟨⟨1024, 100000, 50000, 0, 0⟩⟩ [] =
      ([FsEvent.write "w" "cpu.shares" "1024",
        FsEvent.write "w" "cpu.cfs_period_us" "100000",
        FsEvent.write "w" "cpu.cfs_quota_us" "50000",
        FsEvent.write "w" "cpu.cfs_period_us" "100000"], none) ∧
    countFile "cpu.cfs_period_us"
      (Set failFirstPeriod "w" ⟨⟨1024, 100000, 50000, 0, 0⟩⟩ []).1 = 2 := by
  have h := set_period_retry_sequence "w" ⟨⟨1024, 100000, 50000, 0, 0⟩⟩
    (by decide) (by decide) (by decide)
  exact ⟨h.1.trans (by decide), h.2⟩

/-- Witness for C2 at a concrete spec with zero quota: the retry is still
attempted and its distinct error surfaced. -/
theorem set_period_fails_twice_witness :
    Set failPeriodBoth "w" ⟨⟨1024, 100000, 0, 0, 0⟩⟩ [] =
      ([FsEvent.write "w" "cpu.shares" "1024",
        FsEvent.write "w" "cpu.cfs_period_us" "100000",
        FsEvent.write "w" "cpu.cfs_period_us" "100000"],
       some "retry-period-error") ∧
    countFile "cpu.cfs_quota_us"
      (Set failPeriodBoth "w" ⟨⟨1024, 100000, 0, 0, 0⟩⟩ []).1 = 0 := by
  have h := set_period_fails_twice "w" ⟨⟨1024, 100000, 0, 0, 0⟩⟩ (by decide)
  exact ⟨h.1.trans (by decide), h.2.trans (by decide)⟩

/-- Witness for C3: an all-zero spec yields no writes and success, and with
shares zero the shares parameter is never written. -/
theorem set_zero_fields_never_written_witness :
    Set okOracle "w" ⟨⟨0, 0, 0, 0, 0⟩⟩ [] = ([], none) ∧
    countFile "cpu.shares" (Set okOracle "w" ⟨⟨0, 123, 0, 0, 0⟩⟩ []).1 = 0 :=
  ⟨(set_zero_fields_never_written okOracle "w" ⟨⟨0, 0, 0, 0, 0⟩⟩).2.2.2.2.2.2 rfl,
   (set_zero_fields_never_written okOracle "w" ⟨⟨0, 123, 0, 0, 0⟩⟩).1 rfl⟩

/-- Witness for C4 at a concrete run with RT fields set: the attach event
comes last, after a successful SetRtSched. -/
theorem applyDir_rt_before_attach_witness :
    (SetRtSched okOracle "w" ⟨⟨0, 0, 0, 100, 50⟩⟩ [FsEvent.mkdirAll "w"]).2 = none ∧
    (ApplyDir okOracle "w" ⟨⟨0, 0, 0, 100, 50⟩⟩ 7 []).1 =
      (SetRtSched okOracle "w" ⟨⟨0, 0, 0, 100, 50⟩⟩ [FsEvent.mkdirAll "w"]).1 ++
        [FsEvent.attach "w" 7] :=
  (applyDir_rt_before_attach okOracle "w" ⟨⟨0, 0, 0, 100, 50⟩⟩ 7 (by decide)).2
    (by decide)

/-- Witness for C5: a not-found resolution with empty path is a success
no-op; a different resolution error is returned with no events. -/
theorem apply_resolution_witness :
    Apply okOracle ⟨"", some ⟨true, "cpu not found"⟩, ⟨⟨0, 0, 0, 0, 0⟩⟩, 7⟩ [] =
      ([], none) ∧
    Apply okOracle ⟨"w", some ⟨false, "resolver failed"⟩, ⟨⟨0, 0, 0, 0, 0⟩⟩, 7⟩ [] =
      ([], some "resolver failed") :=
  ⟨(apply_resolution okOracle
      ⟨"", some ⟨true, "cpu not found"⟩, ⟨⟨0, 0, 0, 0, 0⟩⟩, 7⟩).1 rfl (Or.inr rfl),
   (apply_resolution okOracle
      ⟨"w", some ⟨false, "resolver failed"⟩, ⟨⟨0, 0, 0, 0, 0⟩⟩, 7⟩).2
      ⟨false, "resolver failed"⟩ rfl rfl⟩

/-- Witness for C6 on a concrete stats record: a missing cpu.stat is
success with the record untouched, another open error is returned. -/
theorem getStats_open_error_witness :
    GetStats specKeyValueParse (Except.error ⟨true, "enoent"⟩)
        (⟨⟨⟨1, 2, 3⟩, ()⟩, ()⟩ : Stats Unit Unit) =
      (⟨⟨⟨1, 2, 3⟩, ()⟩, ()⟩, none) ∧
    GetStats specKeyValueParse (Except.error ⟨false, "eacces"⟩)
        (⟨⟨⟨1, 2, 3⟩, ()⟩, ()⟩ : Stats Unit Unit) =
      (⟨⟨⟨1, 2, 3⟩, ()⟩, ()⟩, some "eacces") :=
  ⟨(getStats_open_error specKeyValueParse ⟨true, "enoent"⟩ _).1 rfl,
   (getStats_open_error specKeyValueParse ⟨false, "eacces"⟩ _).2 rfl⟩

/-- Witness for C7 with the spec-modelled key/value parser on the concrete
three-line cpu.stat file. -/
theorem getStats_maps_keys_witness :
    GetStats specKeyValueParse
        (Except.ok ["nr_periods 10", "nr_throttled 2", "throttled_time 500000"])
        (⟨⟨⟨0, 0, 0⟩, ()⟩, ()⟩ : Stats Unit Unit) =
      (⟨⟨⟨10, 2, 500000⟩, ()⟩, ()⟩, none) :=
  (getStats_maps_keys specKeyValueParse (⟨⟨⟨0, 0, 0⟩, ()⟩, ()⟩ : Stats Unit Unit)
    rfl rfl rfl).1

/-- Counterexample to C8 as stated: after a good line followed by an
unparsable line, GetStats returns an error but the caller's stats record
has been modified (periods already set to 10). -/
theorem getStats_unchanged_on_error_counterexample :
    ((GetStats specKeyValueParse (Except.ok ["nr_periods 10", "bogus"])
        (⟨⟨⟨0, 0, 0⟩, ()⟩, ()⟩ : Stats Unit Unit)).2).isSome = true ∧
    (GetStats specKeyValueParse (Except.ok ["nr_periods 10", "bogus"])
        (⟨⟨⟨0, 0, 0⟩, ()⟩, ()⟩ : Stats Unit Unit)).1 ≠
      (⟨⟨⟨0, 0, 0⟩, ()⟩, ()⟩ : Stats Unit Unit) := by
  decide

/-- Witness for the amended C8: a clean prefix, then a failing line, then a
further line that is not processed. -/
theorem getStats_parse_error_stops_witness :
    GetStats specKeyValueParse
        (Except.ok (["nr_periods 10"] ++ "bogus" :: ["nr_throttled 2"]))
        (⟨⟨⟨0, 0, 0⟩, ()⟩, ()⟩ : Stats Unit Unit) =
      ((GetStatsLoop specKeyValueParse ["nr_periods 10"]
          (⟨⟨⟨0, 0, 0⟩, ()⟩, ()⟩ : Stats Unit Unit)).1,
        some "invalid format of line: bogus") :=
  getStats_parse_error_stops specKeyValueParse ["nr_periods 10"] "bogus"
    ["nr_throttled 2"] (⟨⟨⟨0, 0, 0⟩, ()⟩, ()⟩ : Stats Unit Unit)
    "invalid format of line: bogus" rfl (by decide)

/-- Witness for C9: on a successful run with both RT fields nonzero, each
RT parameter is written exactly once. -/
theorem setRtSched_write_protocol_witness :
    countFile "cpu.rt_period_us"
        (SetRtSched okOracle "w" ⟨⟨0, 0, 0, 100, 50⟩⟩ []).1 =
      (if (100 : Nat) = 0 then 0 else 1) ∧
    countFile "cpu.rt_runtime_us"
        (SetRtSched okOracle "w" ⟨⟨0, 0, 0, 100, 50⟩⟩ []).1 =
      (if (50 : Int) = 0 then 0 else 1) :=
  (setRtSched_write_protocol okOracle "w" ⟨⟨0, 0, 0, 100, 50⟩⟩).1 rfl

end CpuCgroup
